import Mathlib

/-!
Shallow embedding of the JobSheetAI ingestion pipeline (src/Azure.py).

The pipeline reads messages from Telegram channels, extracts structured
job-posting records via an Azure OpenAI collaborator, validates them, and
appends validated records to a set of Google-Sheet sinks.

External collaborators (the Azure OpenAI client, the Telegram client, the
gspread sheet objects) are modelled as explicit parameters or as boolean
behaviour flags on the data; the control flow of the Python source is
translated function by function.
-/

namespace JobSheet

/-- The pydantic schema `JobDetails` (Azure.py lines 56-63): `company_name`
and `job_role` are required strings; the other four fields are
`Optional[str]`, i.e. they may be `None`, modelled as `Option String`. -/
structure JobDetails where
  company_name : String
  job_role : String
  ctc : Option String
  years_of_experience : Option String
  passout_year : Option String
  application_link : Option String
deriving DecidableEq, Repr

/-- The fallback record built in the `except` branch of `extract_job_details`
(Azure.py lines 98-103): the constructor call passes `company_name=""`,
`job_role=""`, `ctc=""`, `application_link=""` and omits
`years_of_experience` and `passout_year`; those two are `Optional[str]`
pydantic fields and therefore default to `None`. -/
def fallbackJobDetails : JobDetails :=
  { company_name := ""
    job_role := ""
    ctc := some ""
    years_of_experience := none
    passout_year := none
    application_link := some "" }

/-- Python truthiness of a `str`: the empty string is falsy. -/
def pyTruthy (s : String) : Bool := s != ""

/-- Python truthiness of an `Optional[str]`: `None` and `""` are falsy. -/
def pyTruthyOpt : Option String → Bool
  | none => false
  | some s => s != ""

/-- The presence check of `process_message` (Azure.py line 145):
`any([job_details.company_name, job_details.job_role, job_details.ctc,
job_details.application_link])` under Python truthiness. -/
def isPresent (r : JobDetails) : Bool :=
  pyTruthy r.company_name || pyTruthy r.job_role ||
    pyTruthyOpt r.ctc || pyTruthyOpt r.application_link

/-- `extract_job_details` (Azure.py lines 69-103).  The structured Azure
OpenAI client is the collaborator `invoke`; a Python exception from it is an
`Except.error`.  On success the response is returned as is; on any failure
the fallback record is returned instead of propagating the exception. -/
def extract_job_details (invoke : String → Except String JobDetails)
    (message : String) : JobDetails :=
  match invoke message with
  | Except.ok response => response
  | Except.error _ => fallbackJobDetails

/-- One connected Google-Sheet sink: its identifier (`sheet.title` used in
the log messages), whether its `append_row` raises, and the rows appended so
far to its backing store. -/
structure Sink where
  sinkId : String
  fails : Bool
  rows : List (List (Option String))
deriving DecidableEq, Repr

/-- The row built by `append_to_google_sheets` (Azure.py lines 126-135):
the six fields in fixed order; the required `str` fields become cells
`some _`, the `Optional[str]` fields are passed through verbatim. -/
def rowOf (d : JobDetails) : List (Option String) :=
  [some d.company_name, some d.job_role, d.ctc,
    d.years_of_experience, d.passout_year, d.application_link]

/-- `append_to_google_sheets` (Azure.py lines 122-138): iterate over the
sinks; each `append_row` is wrapped in its own try/except, a failure is
logged (second component) and the loop continues with the next sink.
Returns the updated sink list and the list of logged failure messages. -/
def append_to_google_sheets (sheets : List Sink) (data : JobDetails) :
    List Sink × List String :=
  match sheets with
  | [] => ([], [])
  | sheet :: rest =>
    let step :=
      if sheet.fails then
        (sheet, ["Failed to append data to Google Sheet: " ++ sheet.sinkId])
      else
        ({ sheet with rows := sheet.rows ++ [rowOf data] }, [])
    let tail := append_to_google_sheets rest data
    (step.1 :: tail.1, step.2 ++ tail.2)

/-- `process_message` (Azure.py lines 141-149): extract, then append to the
sheets only when the presence check passes.  Returns the updated sinks and
the append-failure logs. -/
def process_message (invoke : String → Except String JobDetails)
    (message_text : String) (sheets : List Sink) : List Sink × List String :=
  let job_details := extract_job_details invoke message_text
  if isPresent job_details then
    append_to_google_sheets sheets job_details
  else
    (sheets, [])

/-- Total number of rows stored across a sink list. -/
def totalRows (sheets : List Sink) : Nat :=
  (sheets.map (fun s => s.rows.length)).sum

/-- One Telegram message as seen by `iter_messages` in `main`: delivery
timestamp (a UTC instant, abstracted to `Nat`) and the text `msg.message`
(`None` and `""` behave identically under the `if msg.message:` truthiness
check, so text is a `String`, with `""` for a message without text). -/
structure Message where
  timestamp : Nat
  text : String
deriving DecidableEq, Repr

/-- One configured channel (an element of `CHANNELS`, Azure.py line 31)
together with the behaviour of the Telegram collaborator for it:
`resolvable` — whether `get_entity` succeeds; `history` — the channel's
delivered messages in chronological delivery order; `errorAfter` — if
`some k`, the history scan raises after yielding `k` messages of the
replay window (a mid-scan fetch error), `none` meaning no fetch error. -/
structure Channel where
  ref : String
  title : String
  resolvable : Bool
  history : List Message
  errorAfter : Option Nat
deriving DecidableEq, Repr

/-- One entry of `CREDENTIALS_FILES` (Azure.py line 53) together with the
collaborator behaviour: whether `connect_to_google_sheet` succeeds for it
and whether the resulting sheet's `append_row` raises. -/
structure Credential where
  file : String
  connects : Bool
  writeFails : Bool
deriving DecidableEq, Repr

/-- The sink-connection loop of `main` (Azure.py lines 174-180): each
credential file is tried in its own try/except; a connection failure is
logged and that credential is skipped.  Returns the connected sinks in
input order and the logged failure messages. -/
def connectSinks : List Credential → List Sink × List String
  | [] => ([], [])
  | c :: rest =>
    let tail := connectSinks rest
    if c.connects then
      ({ sinkId := c.file, fails := c.writeFails, rows := [] } :: tail.1, tail.2)
    else
      (tail.1, ("Skipping Google Sheet for " ++ c.file ++ " due to errors.") :: tail.2)

/-- The channel-resolution loop of `main` (Azure.py lines 192-200): each
configured channel is resolved in its own try/except; a failure is logged
and that channel is dropped.  Returns the resolved channels in input order
and the logged failure messages. -/
def resolveChannels : List Channel → List Channel × List String
  | [] => ([], [])
  | ch :: rest =>
    let tail := resolveChannels rest
    if ch.resolvable then
      (ch :: tail.1, tail.2)
    else
      (tail.1, ("Failed to get entity for " ++ ch.ref) :: tail.2)

/-- Modelled from the spec: the historical scan
`iter_messages(entity, offset_date=start_of_day, reverse=True)` is the
external message source's `replayMessages(handle, since)` collaborator
(spec section 6), which yields the messages delivered on or after `since`
oldest first; on a channel whose fetch errors mid-scan (`errorAfter =
some k`) the stream raises after `k` yielded messages and the enclosing
try/except in `main` (Azure.py lines 203-213) abandons the rest of that
channel's backfill. -/
def channelReplay (since : Nat) (ch : Channel) : List Message :=
  let window := ch.history.filter (fun m => decide (since ≤ m.timestamp))
  match ch.errorAfter with
  | none => window
  | some k => window.take k

/-- The per-channel body of the backfill loop of `main` (Azure.py lines
203-213): the `if msg.message:` truthiness guard drops empty-text messages
before `process_message` is called. -/
def backfillTexts (since : Nat) (ch : Channel) : List String :=
  ((channelReplay since ch).filter (fun m => m.text != "")).map Message.text

/-- Feed a list of message texts, in order, through `process_message`,
threading the sink states and accumulating the append-failure logs. -/
def processTexts (invoke : String → Except String JobDetails) :
    List String → List Sink → List Sink × List String
  | [], sheets => (sheets, [])
  | t :: ts, sheets =>
    let step := process_message invoke t sheets
    let tail := processTexts invoke ts step.1
    (tail.1, step.2 ++ tail.2)

/-- One run's environment: the configured credentials and channels, the
replay boundary `since` (start of the current UTC day at process start),
the texts of the live events delivered before disconnect, in arrival
order, and the extraction collaborator. -/
structure Env where
  credentials : List Credential
  channels : List Channel
  since : Nat
  liveEvents : List String
  invoke : String → Except String JobDetails

/-- Observable outcome of one run of `main`. -/
structure RunTrace where
  sinks : List Sink
  sinkErrors : List String
  resolveErrors : List String
  resolved : List Channel
  backfillPerChannel : List (List String)
  liveInputs : List String
  subscribed : Bool
  appendErrors : List String
deriving DecidableEq, Repr

/-- Texts handed to the extraction step during the whole run, in order. -/
def RunTrace.extractionInputs (t : RunTrace) : List String :=
  t.backfillPerChannel.flatten ++ t.liveInputs

/-- `main` (Azure.py lines 159-221): connect sinks; exit if none connected
(before any channel resolution, backfill or subscription); otherwise
resolve channels, backfill each resolved channel through
`process_message`, then subscribe and route every live event text through
`process_message` (with no empty-text guard on the live path,
`handle_new_message`, Azure.py lines 152-156) until disconnect. -/
def mainRun (env : Env) : RunTrace :=
  let conn := connectSinks env.credentials
  if conn.1.isEmpty then
    { sinks := [], sinkErrors := conn.2, resolveErrors := [], resolved := [],
      backfillPerChannel := [], liveInputs := [], subscribed := false,
      appendErrors := [] }
  else
    let res := resolveChannels env.channels
    let perChannel := res.1.map (backfillTexts env.since)
    let afterBackfill := processTexts env.invoke perChannel.flatten conn.1
    let afterLive := processTexts env.invoke env.liveEvents afterBackfill.1
    { sinks := afterLive.1, sinkErrors := conn.2, resolveErrors := res.2,
      resolved := res.1, backfillPerChannel := perChannel,
      liveInputs := env.liveEvents, subscribed := true,
      appendErrors := afterBackfill.2 ++ afterLive.2 }

/-! ## Concrete fixtures (used to instantiate the theorems) -/

/-- A structured extraction result for a concrete posting. -/
def sampleJob : JobDetails :=
  { company_name := "Acme Corp", job_role := "SDE", ctc := some "10 LPA",
    years_of_experience := none, passout_year := none,
    application_link := some "acme.co/jobs" }

/-- A resolvable channel with two historical messages. -/
def chA : Channel :=
  { ref := "https://t.me/dot_aware", title := "Dot Aware", resolvable := true,
    history := [{ timestamp := 3, text := "Acme Corp hiring SDE, apply at acme.co/jobs" },
                { timestamp := 7, text := "Good morning!" }],
    errorAfter := none }

/-- A channel whose identifier does not resolve. -/
def chBad : Channel :=
  { ref := "https://t.me/blah1bla", title := "", resolvable := false,
    history := [], errorAfter := none }

/-- A credential file whose sheet connects and whose writes succeed. -/
def credOk : Credential :=
  { file := "sheets/sreehari-credentials.json", connects := true, writeFails := false }

/-- A credential file whose sheet fails to connect. -/
def credBad : Credential :=
  { file := "sheets/missing.json", connects := false, writeFails := false }

/-- An extraction collaborator that always succeeds with `sampleJob`. -/
def okInvoke : String → Except String JobDetails := fun _ => Except.ok sampleJob

/-- An extraction collaborator that always raises. -/
def failInvoke : String → Except String JobDetails :=
  fun _ => Except.error "Azure OpenAI unavailable"

/-- A full-run environment: one connecting credential and one broken one,
one resolvable channel and one broken one, one live event. -/
def envMain : Env :=
  { credentials := [credOk, credBad], channels := [chA, chBad], since := 2,
    liveEvents := ["live job post"], invoke := okInvoke }

/-- An environment in which no sink connects. -/
def envNoSinks : Env :=
  { credentials := [credBad], channels := [chA], since := 0,
    liveEvents := ["live job post"], invoke := okInvoke }

/-- An environment whose only live event has empty text. -/
def envEmptyLive : Env :=
  { credentials := [credOk], channels := [], since := 0,
    liveEvents := [""], invoke := failInvoke }

/-! ## Helper lemmas -/

lemma append_fst_eq_map (sheets : List Sink) (d : JobDetails) :
    (append_to_google_sheets sheets d).1 =
      sheets.map (fun s => if s.fails then s else { s with rows := s.rows ++ [rowOf d] }) := by
  induction sheets with
  | nil => rfl
  | cons s rest ih =>
    by_cases hf : s.fails <;> simp [append_to_google_sheets, hf, ih]

lemma append_snd_eq (sheets : List Sink) (d : JobDetails) :
    (append_to_google_sheets sheets d).2 =
      (sheets.filter (fun s => s.fails)).map
        (fun s => "Failed to append data to Google Sheet: " ++ s.sinkId) := by
  induction sheets with
  | nil => rfl
  | cons s rest ih =>
    by_cases hf : s.fails <;> simp [append_to_google_sheets, hf, ih]

lemma totalRows_append_all_ok (sheets : List Sink) (d : JobDetails)
    (h : ∀ s ∈ sheets, s.fails = false) :
    totalRows (append_to_google_sheets sheets d).1 = totalRows sheets + sheets.length := by
  induction sheets with
  | nil => rfl
  | cons s rest ih =>
    have hs : s.fails = false := h s (by simp)
    have hrest : ∀ x ∈ rest, x.fails = false := fun x hx => h x (by simp [hx])
    have ih2 := ih hrest
    simp [append_to_google_sheets, hs, totalRows] at ih2 ⊢
    omega

lemma connectSinks_fst (creds : List Credential) :
    (connectSinks creds).1 =
      (creds.filter (fun c => c.connects)).map
        (fun c => { sinkId := c.file, fails := c.writeFails, rows := [] }) := by
  induction creds with
  | nil => rfl
  | cons c rest ih =>
    by_cases hc : c.connects <;> simp [connectSinks, hc, ih]

lemma resolveChannels_fst (chs : List Channel) :
    (resolveChannels chs).1 = chs.filter (fun ch => ch.resolvable) := by
  induction chs with
  | nil => rfl
  | cons ch rest ih =>
    by_cases hc : ch.resolvable <;> simp [resolveChannels, hc, ih]

lemma resolveChannels_snd (chs : List Channel) :
    (resolveChannels chs).2 =
      (chs.filter (fun ch => !ch.resolvable)).map
        (fun ch => "Failed to get entity for " ++ ch.ref) := by
  induction chs with
  | nil => rfl
  | cons ch rest ih =>
    by_cases hc : ch.resolvable <;> simp [resolveChannels, hc, ih]

lemma mainRun_of_ne (env : Env) (h : (connectSinks env.credentials).1 ≠ []) :
    mainRun env =
      { sinks := (processTexts env.invoke env.liveEvents
          (processTexts env.invoke
            (((resolveChannels env.channels).1.map (backfillTexts env.since)).flatten)
            (connectSinks env.credentials).1).1).1,
        sinkErrors := (connectSinks env.credentials).2,
        resolveErrors := (resolveChannels env.channels).2,
        resolved := (resolveChannels env.channels).1,
        backfillPerChannel :=
          (resolveChannels env.channels).1.map (backfillTexts env.since),
        liveInputs := env.liveEvents,
        subscribed := true,
        appendErrors :=
          (processTexts env.invoke
            (((resolveChannels env.channels).1.map (backfillTexts env.since)).flatten)
            (connectSinks env.credentials).1).2 ++
          (processTexts env.invoke env.liveEvents
            (processTexts env.invoke
              (((resolveChannels env.channels).1.map (backfillTexts env.since)).flatten)
              (connectSinks env.credentials).1).1).2 } := by
  have hne : ¬ (connectSinks env.credentials).1.isEmpty := by
    simpa [List.isEmpty_iff] using h
  simp [mainRun, hne]

lemma backfillTexts_ne_empty (since : Nat) (ch : Channel) :
    ∀ t ∈ backfillTexts since ch, t ≠ "" := by
  intro t ht
  simp [backfillTexts, List.mem_map, List.mem_filter] at ht
  obtain ⟨m, ⟨_, hne⟩, rfl⟩ := ht
  simpa using hne

/-! ## Claim theorems -/

/-- C1, counterexample: the claim says the record returned on collaborator
failure has all six fields equal to the empty string, but on a concrete
failing extraction the returned record's `years_of_experience` (and
likewise `passout_year`) is `None`, not the empty string: the `except`
branch's constructor call omits those two optional fields. -/
theorem c1_counterexample :
    (extract_job_details (fun _ => Except.error "Request timed out")
        "Acme Corp is hiring SDEs").years_of_experience = none ∧
    (extract_job_details (fun _ => Except.error "Request timed out")
        "Acme Corp is hiring SDEs").passout_year = none ∧
    (none : Option String) ≠ some "" := by
  refine ⟨rfl, rfl, by simp⟩

/-- C1 (amended): for every input text, `extract_job_details` returns a
`JobDetails` and never raises: on any collaborator failure it returns the
fallback sentinel whose `company_name`, `job_role`, `ctc` and
`application_link` are the empty string and whose `years_of_experience`
and `passout_year` are `None`; the sentinel fails the presence check. -/
theorem c1_extract_failure_fallback (invoke : String → Except String JobDetails)
    (message e : String) (h : invoke message = Except.error e) :
    extract_job_details invoke message = fallbackJobDetails ∧
    fallbackJobDetails.company_name = "" ∧
    fallbackJobDetails.job_role = "" ∧
    fallbackJobDetails.ctc = some "" ∧
    fallbackJobDetails.application_link = some "" ∧
    fallbackJobDetails.years_of_experience = none ∧
    fallbackJobDetails.passout_year = none ∧
    isPresent fallbackJobDetails = false := by
  exact ⟨by simp [extract_job_details, h], rfl, rfl, rfl, rfl, rfl, rfl, by decide⟩

/-- C1 witness: the amended theorem applied to a collaborator that always
times out, on the text "Good morning!". -/
theorem c1_extract_failure_fallback_witness :
    (fun _ : String => (Except.error "Request timed out" : Except String JobDetails))
        "Good morning!" = Except.error "Request timed out" ∧
    extract_job_details (fun _ => Except.error "Request timed out")
        "Good morning!" = fallbackJobDetails :=
  ⟨rfl, (c1_extract_failure_fallback (fun _ => Except.error "Request timed out")
      "Good morning!" "Request timed out" rfl).1⟩

/-- C2: the presence check returns true iff at least one of `company_name`,
`job_role`, `ctc`, `application_link` is non-empty (for the optional
fields: some non-empty string — `None` counts as empty); it is false on
the fallback sentinel and on every record whose only non-empty fields are
`years_of_experience` or `passout_year`. -/
theorem c2_isPresent_iff :
    (∀ r : JobDetails, isPresent r = true ↔
      (r.company_name ≠ "" ∨ r.job_role ≠ "" ∨
        (∃ s, r.ctc = some s ∧ s ≠ "") ∨
        (∃ s, r.application_link = some s ∧ s ≠ ""))) ∧
    isPresent fallbackJobDetails = false ∧
    (∀ yoe py : Option String,
      isPresent { company_name := "", job_role := "", ctc := none,
                  years_of_experience := yoe, passout_year := py,
                  application_link := none } = false) := by
  refine ⟨?_, by decide, fun yoe py => by simp [isPresent, pyTruthy, pyTruthyOpt]⟩
  rintro ⟨c, j, ctc, yoe, py, link⟩
  cases ctc <;> cases link <;>
    simp [isPresent, pyTruthy, pyTruthyOpt, or_assoc]

/-- C3: with three active sinks of which only the second one's write fails,
`append_to_google_sheets` still appends the row to sinks #1 and #3, leaves
the failing sink in the set (unchanged, not removed), and logs exactly one
failure, carrying sink #2's identifier. -/
theorem c3_sink_failure_isolated (s1 s2 s3 : Sink) (d : JobDetails)
    (h1 : s1.fails = false) (h2 : s2.fails = true) (h3 : s3.fails = false) :
    (append_to_google_sheets [s1, s2, s3] d).1 =
      [{ s1 with rows := s1.rows ++ [rowOf d] }, s2,
        { s3 with rows := s3.rows ++ [rowOf d] }] ∧
    (append_to_google_sheets [s1, s2, s3] d).2 =
      ["Failed to append data to Google Sheet: " ++ s2.sinkId] := by
  constructor
  · rw [append_fst_eq_map]
    simp [h1, h2, h3]
  · rw [append_snd_eq]
    simp [h1, h2, h3]

/-- C3 witness: the theorem at three concrete sinks, the middle one
failing. -/
theorem c3_sink_failure_isolated_witness :
    (Sink.mk "alpha" false []).fails = false ∧
    (Sink.mk "beta" true []).fails = true ∧
    (Sink.mk "gamma" false []).fails = false ∧
    (append_to_google_sheets
        [Sink.mk "alpha" false [], Sink.mk "beta" true [], Sink.mk "gamma" false []]
        fallbackJobDetails).2 =
      ["Failed to append data to Google Sheet: beta"] :=
  ⟨rfl, rfl, rfl,
    (c3_sink_failure_isolated (Sink.mk "alpha" false []) (Sink.mk "beta" true [])
      (Sink.mk "gamma" false []) fallbackJobDetails rfl rfl rfl).2⟩

/-- C5: when every active sink's write succeeds, appending one record adds
exactly one row to each active sink, and that row carries the six fields
in the fixed order company, role, ctc, experience, passout year, link. -/
theorem c5_fixed_row_order (sheets : List Sink) (d : JobDetails)
    (h : ∀ s ∈ sheets, s.fails = false) :
    (append_to_google_sheets sheets d).1.map Sink.rows =
      sheets.map (fun s => s.rows ++ [rowOf d]) ∧
    rowOf d = [some d.company_name, some d.job_role, d.ctc,
      d.years_of_experience, d.passout_year, d.application_link] := by
  refine ⟨?_, rfl⟩
  rw [append_fst_eq_map]
  rw [List.map_map]
  apply List.map_congr_left
  intro s hs
  simp [h s hs]

/-- C5 witness: the theorem at one concrete healthy sink and a concrete
record with a `None` optional field. -/
theorem c5_fixed_row_order_witness :
    (∀ s ∈ [Sink.mk "alpha" false []], s.fails = false) ∧
    (append_to_google_sheets [Sink.mk "alpha" false []]
        (JobDetails.mk "Acme Corp" "SDE" (some "10 LPA") none none
          (some "acme.co/jobs"))).1.map Sink.rows =
      [[[some "Acme Corp", some "SDE", some "10 LPA", none, none,
          some "acme.co/jobs"]]] :=
  ⟨by simp, by
    have h := (c5_fixed_row_order [Sink.mk "alpha" false []]
      (JobDetails.mk "Acme Corp" "SDE" (some "10 LPA") none none
        (some "acme.co/jobs")) (by simp)).1
    simpa [rowOf] using h⟩

/-- C4: if zero sinks connect at startup, `main` stops before entering the
backfill phase: no channel is resolved, no historical replay happens, no
live subscription is started, and no text is ever handed to extraction. -/
theorem c4_no_sinks_stops (env : Env)
    (h : (connectSinks env.credentials).1 = []) :
    (mainRun env).subscribed = false ∧
    (mainRun env).resolved = [] ∧
    (mainRun env).backfillPerChannel = [] ∧
    (mainRun env).liveInputs = [] ∧
    (mainRun env).sinks = [] ∧
    (mainRun env).extractionInputs = [] := by
  have hc : (connectSinks env.credentials).1.isEmpty = true := by simp [h]
  simp [mainRun, hc, RunTrace.extractionInputs]

/-- C4 witness: the theorem at an environment whose only credential fails
to connect, even though a channel and a live event are available. -/
theorem c4_no_sinks_stops_witness :
    (connectSinks envNoSinks.credentials).1 = [] ∧
    (mainRun envNoSinks).subscribed = false ∧
    (mainRun envNoSinks).extractionInputs = [] := by
  have h := c4_no_sinks_stops envNoSinks (by decide)
  exact ⟨by decide, h.1, h.2.2.2.2.2⟩

/-- C6: with a non-empty set of healthy sinks, processing a message changes
the stored rows iff the extracted record passes the presence check: a
record failing the check never reaches the sinks. -/
theorem c6_append_iff_present (invoke : String → Except String JobDetails)
    (text : String) (sheets : List Sink) (hne : sheets ≠ [])
    (hok : ∀ s ∈ sheets, s.fails = false) :
    totalRows (process_message invoke text sheets).1 ≠ totalRows sheets ↔
      isPresent (extract_job_details invoke text) = true := by
  cases hb : isPresent (extract_job_details invoke text) with
  | false => simp [process_message, hb]
  | true =>
    have htot := totalRows_append_all_ok sheets (extract_job_details invoke text) hok
    have hlen : 0 < sheets.length := List.length_pos.mpr hne
    simp [process_message, hb]
    omega

/-- C6 witness: the theorem at one healthy sink, once with a collaborator
that finds a posting (rows grow) and once with a failing collaborator
whose sentinel is dropped (rows unchanged). -/
theorem c6_append_iff_present_witness :
    ([Sink.mk "alpha" false []] ≠ ([] : List Sink)) ∧
    (∀ s ∈ [Sink.mk "alpha" false []], s.fails = false) ∧
    (totalRows (process_message okInvoke "Acme Corp hiring SDE"
        [Sink.mk "alpha" false []]).1 ≠
      totalRows [Sink.mk "alpha" false []] ↔
      isPresent (extract_job_details okInvoke "Acme Corp hiring SDE") = true) ∧
    (totalRows (process_message failInvoke "Good morning!"
        [Sink.mk "alpha" false []]).1 ≠
      totalRows [Sink.mk "alpha" false []] ↔
      isPresent (extract_job_details failInvoke "Good morning!") = true) :=
  ⟨by simp, by simp,
    c6_append_iff_present okInvoke "Acme Corp hiring SDE"
      [Sink.mk "alpha" false []] (by simp) (by simp),
    c6_append_iff_present failInvoke "Good morning!"
      [Sink.mk "alpha" false []] (by simp) (by simp)⟩

/-- C7, counterexample: the claim says empty-text messages are filtered out
on both paths, but in a run whose live subscription delivers one event with
empty text, the empty text is handed to the extraction step: the live
handler calls `process_message` on `event.raw_text` with no truthiness
guard. -/
theorem c7_counterexample :
    "" ∈ (mainRun envEmptyLive).extractionInputs := by
  have h : (mainRun envEmptyLive).extractionInputs = [""] := by decide
  simp [h]

/-- C7 (amended): empty-text messages are filtered out before extraction on
the historical-replay path only; on the live-subscription path every
delivered text, the empty text included, is handed downstream
unconditionally. -/
theorem c7_empty_filter_backfill_only (env : Env) :
    (∀ t ∈ (mainRun env).backfillPerChannel.flatten, t ≠ "") ∧
    ((mainRun env).subscribed = true → (mainRun env).liveInputs = env.liveEvents) := by
  by_cases hc : (connectSinks env.credentials).1.isEmpty
  · constructor
    · intro t ht
      simp [mainRun, hc] at ht
    · intro hs
      simp [mainRun, hc] at hs
  · have h : (connectSinks env.credentials).1 ≠ [] := by
      simpa [List.isEmpty_iff] using hc
    rw [mainRun_of_ne env h]
    constructor
    · intro t ht
      simp [List.mem_flatten, List.mem_map] at ht
      obtain ⟨ch, _, hch⟩ := ht
      exact backfillTexts_ne_empty env.since ch t hch
    · intro _
      rfl

/-- C8: as long as at least one sink connects, channel resolution drops
exactly the unresolvable identifiers, logging one failure naming each,
preserves the configured order among the resolved ones, and the run goes
on to the subscription regardless of how many identifiers failed. -/
theorem c8_channel_resolution (env : Env)
    (h : (connectSinks env.credentials).1 ≠ []) :
    (mainRun env).resolved = env.channels.filter (fun ch => ch.resolvable) ∧
    (mainRun env).resolveErrors =
      (env.channels.filter (fun ch => !ch.resolvable)).map
        (fun ch => "Failed to get entity for " ++ ch.ref) ∧
    (mainRun env).subscribed = true := by
  rw [mainRun_of_ne env h]
  exact ⟨resolveChannels_fst env.channels, resolveChannels_snd env.channels, rfl⟩

/-- C8 witness: the theorem at an environment with one resolvable and one
unresolvable channel. -/
theorem c8_channel_resolution_witness :
    (connectSinks envMain.credentials).1 ≠ [] ∧
    (mainRun envMain).resolved = [chA] ∧
    (mainRun envMain).resolveErrors =
      ["Failed to get entity for https://t.me/blah1bla"] ∧
    (mainRun envMain).subscribed = true := by
  have h := c8_channel_resolution envMain (by decide)
  refine ⟨by decide, ?_, ?_, h.2.2⟩
  · rw [h.1]; decide
  · rw [h.2.1]; decide

/-- C9: the backfill output is computed channel by channel (so one
channel's mid-scan fetch error leaves every other channel's replay
unchanged); for a channel with no fetch error and no empty-text message
the replay hands downstream exactly the messages delivered on or after
`since`; replay preserves chronological order; and a mid-scan fetch error
truncates that channel's window to an initial segment, abandoning the
rest. -/
theorem c9_replay_window_order (env : Env)
    (h : (connectSinks env.credentials).1 ≠ []) :
    (mainRun env).backfillPerChannel =
      (env.channels.filter (fun ch => ch.resolvable)).map (backfillTexts env.since) ∧
    (∀ ch : Channel, ch.errorAfter = none → (∀ m ∈ ch.history, m.text ≠ "") →
      backfillTexts env.since ch =
        (ch.history.filter (fun m => decide (env.since ≤ m.timestamp))).map
          Message.text) ∧
    (∀ ch : Channel,
      List.Sorted (fun a b : Message => a.timestamp ≤ b.timestamp) ch.history →
      List.Sorted (fun a b : Message => a.timestamp ≤ b.timestamp)
        (channelReplay env.since ch)) ∧
    (∀ (ch : Channel) (k : Nat), ch.errorAfter = some k → ∃ rest,
      ch.history.filter (fun m => decide (env.since ≤ m.timestamp)) =
        channelReplay env.since ch ++ rest) := by
  refine ⟨?_, ?_, ?_, ?_⟩
  · rw [mainRun_of_ne env h]
    simp [resolveChannels_fst]
  · intro ch h0 hall
    have hrep : channelReplay env.since ch =
        ch.history.filter (fun m => decide (env.since ≤ m.timestamp)) := by
      simp [channelReplay, h0]
    have hfil : (channelReplay env.since ch).filter (fun m => m.text != "") =
        channelReplay env.since ch := by
      rw [List.filter_eq_self]
      intro m hm
      rw [hrep] at hm
      have := hall m (List.mem_of_mem_filter hm)
      simpa using this
    rw [backfillTexts, hfil, hrep]
  · intro ch hsort
    have hwin : List.Sorted (fun a b : Message => a.timestamp ≤ b.timestamp)
        (ch.history.filter (fun m => decide (env.since ≤ m.timestamp))) :=
      List.Pairwise.filter _ hsort
    cases he : ch.errorAfter with
    | none => simpa [channelReplay, he] using hwin
    | some k =>
      have hsub : List.Sublist
          ((ch.history.filter (fun m => decide (env.since ≤ m.timestamp))).take k)
          (ch.history.filter (fun m => decide (env.since ≤ m.timestamp))) :=
        List.take_sublist k _
      simpa [channelReplay, he] using hwin.sublist hsub
  · intro ch k he
    refine ⟨(ch.history.filter (fun m => decide (env.since ≤ m.timestamp))).drop k, ?_⟩
    simp [channelReplay, he]

/-- C9 witness: the theorem at `envMain`, instantiated on the concrete
channel `chA` (two in-window messages delivered in order) and on a variant
of `chA` that errors after its first yielded message. -/
theorem c9_replay_window_order_witness :
    (connectSinks envMain.credentials).1 ≠ [] ∧
    (mainRun envMain).backfillPerChannel = [backfillTexts envMain.since chA] ∧
    backfillTexts envMain.since chA =
      (chA.history.filter
        (fun m => decide (envMain.since ≤ m.timestamp))).map Message.text ∧
    List.Sorted (fun a b : Message => a.timestamp ≤ b.timestamp)
      (channelReplay envMain.since chA) ∧
    (∃ rest, chA.history.filter
        (fun m => decide (envMain.since ≤ m.timestamp)) =
      channelReplay envMain.since { chA with errorAfter := some 1 } ++ rest) := by
  have h := c9_replay_window_order envMain (by decide)
  refine ⟨by decide, ?_, h.2.1 chA (by decide) (by decide), ?_, ?_⟩
  · rw [h.1]; decide
  · exact h.2.2.1 chA (by decide)
  · have h4 := h.2.2.2 { chA with errorAfter := some 1 } 1 (by decide)
    simpa [chA, channelReplay] using h4

/-- C10: on a successful extraction the collaborator's structured result is
passed through unchanged; a record whose optional fields are `None` counts
as absent in the presence check exactly like empty strings; and the sink
row carries the optional fields verbatim (a `None` stays `None` rather
than being converted to an empty string). -/
theorem c10_no_normalization :
    (∀ (invoke : String → Except String JobDetails) (msg : String)
        (r : JobDetails), invoke msg = Except.ok r →
      extract_job_details invoke msg = r) ∧
    (∀ r : JobDetails, r.company_name = "" → r.job_role = "" → r.ctc = none →
      r.application_link = none → isPresent r = false) ∧
    (∀ r : JobDetails, rowOf r = [some r.company_name, some r.job_role, r.ctc,
      r.years_of_experience, r.passout_year, r.application_link]) := by
  refine ⟨?_, ?_, fun r => rfl⟩
  · intro invoke msg r h
    simp [extract_job_details, h]
  · intro r h1 h2 h3 h4
    simp [isPresent, pyTruthy, pyTruthyOpt, h1, h2, h3, h4]

end JobSheet
